import Mathlib

/-!
Verification development for the logistics repository's geocoding-to-price
pipeline (src/geocoding.py, src/app.py, src/services/booking_service.py).

Strings are modelled as lists of characters; Python float arithmetic is
modelled exactly over the rationals (for the tariff calculator) and over the
reals (for the trigonometric haversine geometry).  External collaborators
(the Nominatim geocoding service, the distance-matrix API, the geopy geodesic
library) are modelled as explicit parameters, so that theorems can quantify
over every possible behaviour of the network.
-/

namespace Logistics

/-! ### Python string primitives -/

/-- The character list underlying a string literal. -/
def chars (s : String) : List Char := s.data

/-- Python `str.lower()` restricted to ASCII (all inputs used here are ASCII). -/
def pyLowerChar (c : Char) : Char :=
  if 'A' ≤ c ∧ c ≤ 'Z' then Char.ofNat (c.toNat + 32) else c

/-- Python `str.upper()` on a single ASCII character. -/
def pyUpperChar (c : Char) : Char :=
  if 'a' ≤ c ∧ c ≤ 'z' then Char.ofNat (c.toNat - 32) else c

/-- Lowercase a whole string, as Python `str.lower()`. -/
def pyLower (s : List Char) : List Char := s.map pyLowerChar

/-- ASCII letter test (Python `str.isalpha` on the ASCII range). -/
def isAsciiLetter (c : Char) : Bool :=
  ('a' ≤ c ∧ c ≤ 'z') ∨ ('A' ≤ c ∧ c ≤ 'Z')

/-- Python whitespace characters stripped by `str.strip()` / split by `str.split()`. -/
def isPyWs (c : Char) : Bool :=
  c = ' ' ∨ c = '\t' ∨ c = '\n' ∨ c = '\x0b' ∨ c = '\x0c' ∨ c = '\r'

/-- Python `str.strip()`: remove leading and trailing whitespace. -/
def pyStrip (s : List Char) : List Char :=
  ((s.dropWhile isPyWs).reverse.dropWhile isPyWs).reverse

/-- Python `str.title()`: first letter of each alphabetic run uppercased,
the following letters lowercased.  The boolean argument records whether the
previous character was a letter. -/
def pyTitleAux : Bool → List Char → List Char
  | _, [] => []
  | prevAlpha, c :: rest =>
    (if isAsciiLetter c then (if prevAlpha then pyLowerChar c else pyUpperChar c) else c)
      :: pyTitleAux (isAsciiLetter c) rest

/-- Python `str.title()`. -/
def pyTitle (s : List Char) : List Char := pyTitleAux false s

/-- Whether `p` is a prefix of `s` (decidable, Bool-valued). -/
def isPrefixList : List Char → List Char → Bool
  | [], _ => true
  | _ :: _, [] => false
  | p :: ps, c :: cs => p = c && isPrefixList ps cs

/-- Python substring test `p in s`. -/
def containsSub (p : List Char) : List Char → Bool
  | [] => isPrefixList p []
  | c :: rest => isPrefixList p (c :: rest) || containsSub p rest

/-- Python `s.replace(p, r)`, structured with explicit fuel so that it is a
structural recursion (every step consumes at least one character of `s` when
`p` is nonempty, so fuel `s.length` is always sufficient): replace every
left-to-right, non-overlapping occurrence of `p` in `s` by `r`.  Patterns
used in this development are never empty; for an empty pattern the string is
returned unchanged. -/
def replaceAllFuel (p r : List Char) : ℕ → List Char → List Char
  | 0, s => s
  | _ + 1, [] => []
  | fuel + 1, c :: rest =>
    if p.length = 0 then c :: rest
    else if isPrefixList p (c :: rest) then
      r ++ replaceAllFuel p r fuel ((c :: rest).drop p.length)
    else
      c :: replaceAllFuel p r fuel rest

/-- Python `s.replace(p, r)`. -/
def replaceAll (p r : List Char) (s : List Char) : List Char :=
  replaceAllFuel p r s.length s

/-- Python `str.split()` with no argument: split on whitespace runs,
discarding empty pieces. -/
def splitWs : List Char → List (List Char)
  | [] => []
  | c :: rest =>
    let r := splitWs rest
    if isPyWs c then r
    else
      match rest, r with
      | [], _ => [[c]]
      | d :: _, w :: ws => if isPyWs d then [c] :: w :: ws else (c :: w) :: ws
      | _ :: _, [] => [[c]]

/-- `' '.join(pieces)`. -/
def joinSpace (pieces : List (List Char)) : List Char :=
  List.intercalate (chars " ") pieces

/-! ### Gazetteer (geocoding.py `NIGERIAN_LOCATIONS`) -/

/-- One entry of the known-locations table: place name, coordinates, city. -/
structure LocEntry where
  name : String
  lat : ℚ
  lng : ℚ
  city : String
deriving DecidableEq, Repr

set_option maxHeartbeats 1000000 in
/-- The `NIGERIAN_LOCATIONS` dictionary from src/geocoding.py, in insertion
(= iteration) order. -/
def NIGERIAN_LOCATIONS : List LocEntry := [
  ⟨"kubwa", 9.1167, 7.3833, "Abuja"⟩,
  ⟨"chikakore", 9.1200, 7.3700, "Abuja"⟩,
  ⟨"lifecamp", 9.0820, 7.4010, "Abuja"⟩,
  ⟨"life camp", 9.0820, 7.4010, "Abuja"⟩,
  ⟨"julius berger", 9.0800, 7.4000, "Abuja"⟩,
  ⟨"gwarinpa", 9.0833, 7.4167, "Abuja"⟩,
  ⟨"wuse", 9.0765, 7.4897, "Abuja"⟩,
  ⟨"wuse 2", 9.0780, 7.4750, "Abuja"⟩,
  ⟨"maitama", 9.0833, 7.5000, "Abuja"⟩,
  ⟨"asokoro", 9.0422, 7.5256, "Abuja"⟩,
  ⟨"garki", 9.0167, 7.4833, "Abuja"⟩,
  ⟨"garki 2", 9.0200, 7.4900, "Abuja"⟩,
  ⟨"jabi", 9.0667, 7.4333, "Abuja"⟩,
  ⟨"utako", 9.0736, 7.4392, "Abuja"⟩,
  ⟨"lugbe", 8.9833, 7.3833, "Abuja"⟩,
  ⟨"nyanya", 9.0167, 7.5667, "Abuja"⟩,
  ⟨"karu", 9.0333, 7.6167, "Abuja"⟩,
  ⟨"mpape", 9.1167, 7.4833, "Abuja"⟩,
  ⟨"dutse", 9.0667, 7.5000, "Abuja"⟩,
  ⟨"bwari", 9.2833, 7.3833, "Abuja"⟩,
  ⟨"gwagwalada", 8.9500, 7.0833, "Abuja"⟩,
  ⟨"airport road", 9.0500, 7.4500, "Abuja"⟩,
  ⟨"central area", 9.0578, 7.4951, "Abuja"⟩,
  ⟨"area 1", 9.0400, 7.4800, "Abuja"⟩,
  ⟨"area 3", 9.0450, 7.4850, "Abuja"⟩,
  ⟨"area 11", 9.0550, 7.4700, "Abuja"⟩,
  ⟨"kado", 9.0900, 7.4600, "Abuja"⟩,
  ⟨"dawaki", 9.1100, 7.4800, "Abuja"⟩,
  ⟨"katampe", 9.0950, 7.4300, "Abuja"⟩,
  ⟨"lokogoma", 8.9700, 7.4200, "Abuja"⟩,
  ⟨"apo", 9.0000, 7.5100, "Abuja"⟩,
  ⟨"durumi", 9.0100, 7.4600, "Abuja"⟩,
  ⟨"gudu", 9.0050, 7.4800, "Abuja"⟩,
  ⟨"wuye", 9.0800, 7.4600, "Abuja"⟩,
  ⟨"ikeja", 6.6018, 3.3515, "Lagos"⟩,
  ⟨"victoria island", 6.4281, 3.4219, "Lagos"⟩,
  ⟨"vi", 6.4281, 3.4219, "Lagos"⟩,
  ⟨"lekki", 6.4698, 3.5852, "Lagos"⟩,
  ⟨"ikoyi", 6.4549, 3.4367, "Lagos"⟩,
  ⟨"yaba", 6.5095, 3.3711, "Lagos"⟩,
  ⟨"surulere", 6.5059, 3.3509, "Lagos"⟩,
  ⟨"maryland", 6.5714, 3.3633, "Lagos"⟩,
  ⟨"ajah", 6.4667, 3.6000, "Lagos"⟩,
  ⟨"oshodi", 6.5333, 3.3333, "Lagos"⟩,
  ⟨"apapa", 6.4500, 3.3667, "Lagos"⟩,
  ⟨"festac", 6.4667, 3.2833, "Lagos"⟩,
  ⟨"marina", 6.4500, 3.4000, "Lagos"⟩,
  ⟨"ojuelegba", 6.5167, 3.3667, "Lagos"⟩,
  ⟨"mushin", 6.5333, 3.3500, "Lagos"⟩,
  ⟨"agege", 6.6167, 3.3167, "Lagos"⟩,
  ⟨"ogba", 6.6167, 3.3333, "Lagos"⟩,
  ⟨"berger", 6.6000, 3.3500, "Lagos"⟩,
  ⟨"iyana ipaja", 6.6167, 3.2667, "Lagos"⟩,
  ⟨"alimosho", 6.6167, 3.2500, "Lagos"⟩,
  ⟨"port harcourt", 4.8156, 7.0498, "Port Harcourt"⟩,
  ⟨"trans amadi", 4.8000, 7.0333, "Port Harcourt"⟩,
  ⟨"rumuokoro", 4.8500, 7.0167, "Port Harcourt"⟩,
  ⟨"rumuola", 4.8333, 7.0333, "Port Harcourt"⟩,
  ⟨"gra port harcourt", 4.8167, 7.0167, "Port Harcourt"⟩,
  ⟨"kano", 12.0022, 8.5920, "Kano"⟩,
  ⟨"sabon gari kano", 11.9833, 8.5333, "Kano"⟩,
  ⟨"ibadan", 7.3775, 3.9470, "Ibadan"⟩,
  ⟨"bodija", 7.4167, 3.9000, "Ibadan"⟩,
  ⟨"challenge", 7.3667, 3.9167, "Ibadan"⟩,
  ⟨"ui", 7.4500, 3.9000, "Ibadan"⟩,
  ⟨"enugu", 6.4584, 7.5464, "Enugu"⟩,
  ⟨"independence layout", 6.4500, 7.5000, "Enugu"⟩,
  ⟨"kaduna", 10.5222, 7.4383, "Kaduna"⟩,
  ⟨"benin city", 6.3350, 5.6037, "Benin City"⟩,
  ⟨"warri", 5.5167, 5.7500, "Warri"⟩,
  ⟨"calabar", 4.9517, 8.3220, "Calabar"⟩,
  ⟨"jos", 9.8965, 8.8583, "Jos"⟩,
  ⟨"maiduguri", 11.8333, 13.1500, "Maiduguri"⟩,
  ⟨"owerri", 5.4833, 7.0333, "Owerri"⟩,
  ⟨"uyo", 5.0500, 7.9333, "Uyo"⟩,
  ⟨"akure", 7.2500, 5.1950, "Akure"⟩,
  ⟨"abeokuta", 7.1608, 3.3483, "Abeokuta"⟩,
  ⟨"ilorin", 8.4799, 4.5418, "Ilorin"⟩,
  ⟨"lokoja", 7.8000, 6.7333, "Lokoja"⟩,
  ⟨"sokoto", 13.0622, 5.2339, "Sokoto"⟩,
  ⟨"zaria", 11.0667, 7.7000, "Zaria"⟩]

/-! ### Address normalization and resolution (geocoding.py) -/

/-- The `remove_words` list of `normalize_address`, in source order. -/
def REMOVE_WORDS : List (List Char) :=
  [chars "street", chars "road", chars "avenue", chars "close", chars "crescent",
   chars "drive", chars "estate", chars "layout", chars "phase", chars "extension",
   chars "ext", chars "nigeria", chars "fct", chars "state", chars ",", chars ".",
   chars "-", chars "near", chars "opposite", chars "beside", chars "behind",
   chars "after", chars "before", chars "junction", chars "bus stop"]

/-- `normalize_address` from src/geocoding.py: lowercase and strip, replace
each noise token by a space (sequentially, in list order), collapse runs of
whitespace. -/
def normalize_address (address : List Char) : List Char :=
  let normalized := pyStrip (pyLower address)
  let normalized := REMOVE_WORDS.foldl (fun acc w => replaceAll w (chars " ") acc) normalized
  joinSpace (splitWs normalized)

/-- The `match_type` field of a resolution result. -/
inductive MatchType where
  | known_location
  | nominatim
  | nominatim_simplified
  | city_fallback
deriving DecidableEq, Repr

/-- A resolved location: the result dictionary of `geocode_address`.
`city` is `none` when the Python dict has no `'city'` key (Nominatim and
city-fallback results), matching `dict.get('city')` returning `None`. -/
structure GeoLoc where
  latitude : ℚ
  longitude : ℚ
  formatted_address : List Char
  city : Option (List Char)
  match_type : MatchType
  is_approximate : Bool
deriving DecidableEq, Repr

/-- The result dictionary built by `find_known_location` for a matched entry:
coordinates, synthesized formatted address, city, match type. -/
def knownLoc (e : LocEntry) : GeoLoc :=
  { latitude := e.lat
    longitude := e.lng
    formatted_address :=
      pyTitle (chars e.name) ++ chars ", " ++ chars e.city ++ chars ", Nigeria"
    city := some (chars e.city)
    match_type := .known_location
    is_approximate := false }

/-- `find_known_location` from src/geocoding.py: first gazetteer entry (in
iteration order) whose name is a substring of the normalized address. -/
def find_known_location (address : List Char) : Option GeoLoc :=
  let normalized := normalize_address address
  (NIGERIAN_LOCATIONS.find? fun e => containsSub (chars e.name) normalized).map knownLoc

/-- A successful response of the external Nominatim service (the pipeline's
only network dependency in `geocode_address`): coordinates, display name, and
whether the simplified (second) query produced it. -/
structure NomHit where
  latitude : ℚ
  longitude : ℚ
  formatted_address : List Char
  simplified : Bool
deriving DecidableEq, Repr

/-- The result dictionary built by `geocode_with_nominatim` from a hit: note
it carries no `'city'` key. -/
def nomLoc (h : NomHit) : GeoLoc :=
  { latitude := h.latitude
    longitude := h.longitude
    formatted_address := h.formatted_address
    city := none
    match_type := if h.simplified then .nominatim_simplified else .nominatim
    is_approximate := false }

/-- The city-level final fallback of `geocode_address`: first gazetteer entry
whose name occurs in the raw lowercased address. -/
def city_fallback (address : List Char) : Option GeoLoc :=
  (NIGERIAN_LOCATIONS.find? fun e => containsSub (chars e.name) (pyLower address)).map
    fun e =>
      { latitude := e.lat
        longitude := e.lng
        formatted_address :=
          address ++ chars " (approximate: " ++ pyTitle (chars e.name) ++ chars ")"
        city := none
        match_type := .city_fallback
        is_approximate := true }

/-- Outcome of `geocode_address`: the optional resolved location, plus whether
the network (Nominatim) was consulted. -/
structure GeoOutcome where
  result : Option GeoLoc
  network_used : Bool
deriving DecidableEq, Repr

/-- `geocode_address` from src/geocoding.py, parameterized by the behaviour of
the external Nominatim service (`nominatim address = none` models both "no
result" and any transport failure, which the source catches and treats as no
result). -/
def geocode_address (nominatim : List Char → Option NomHit) (address : List Char) :
    GeoOutcome :=
  if address = [] ∨ (pyStrip address).length < 3 then ⟨none, false⟩
  else
    let address := pyStrip address
    match find_known_location address with
    | some r => ⟨some r, false⟩
    | none =>
      match nominatim address with
      | some h => ⟨some (nomLoc h), true⟩
      | none => ⟨city_fallback address, true⟩

/-- A Nominatim service that never returns a result (offline network). -/
def offlineNominatim : List Char → Option NomHit := fun _ => none

/-! ### Numeric primitives: Python `round` and `int` -/

/-- Round to the nearest integer, ties to the even integer — the rounding
used by Python's built-in `round`. -/
def roundHalfEven {α : Type} [LinearOrderedField α] [FloorRing α] (x : α) : ℤ :=
  if x - ⌊x⌋ < 1 / 2 then ⌊x⌋
  else if 1 / 2 < x - ⌊x⌋ then ⌊x⌋ + 1
  else if ⌊x⌋ % 2 = 0 then ⌊x⌋ else ⌊x⌋ + 1

/-- Python `round(x, p)` for `p` decimal digits (half-to-even), modelled over
exact arithmetic. -/
def pyRound {α : Type} [LinearOrderedField α] [FloorRing α] (p : ℕ) (x : α) : α :=
  (roundHalfEven (x * (10 : α) ^ p) : α) / (10 : α) ^ p

/-- Python `int(x)` on a float: truncation toward zero. -/
def pyInt {α : Type} [LinearOrderedField α] [FloorRing α] (x : α) : ℤ :=
  if 0 ≤ x then ⌊x⌋ else ⌈x⌉

/-! ### Distance estimation (geocoding.py `calculate_distance` / `calculate_route`) -/

noncomputable section RouteGeometry

open Real in
open Classical in
/-- Python `math.atan2 y x`. -/
def atan2 (y x : ℝ) : ℝ :=
  if 0 < x then arctan (y / x)
  else if x < 0 then
    (if 0 ≤ y then arctan (y / x) + π else arctan (y / x) - π)
  else
    (if 0 < y then π / 2 else if y < 0 then -(π / 2) else 0)

open Real in
/-- `calculate_distance` from src/geocoding.py: the haversine great-circle
distance in kilometres (`math.radians x = x * π / 180`). -/
def calculate_distance (lat1 lon1 lat2 lon2 : ℝ) : ℝ :=
  let rlat1 := lat1 * π / 180
  let rlon1 := lon1 * π / 180
  let rlat2 := lat2 * π / 180
  let rlon2 := lon2 * π / 180
  let dlat := rlat2 - rlat1
  let dlon := rlon2 - rlon1
  let a := sin (dlat / 2) ^ 2 + cos rlat1 * cos rlat2 * sin (dlon / 2) ^ 2
  let c := 2 * atan2 (sqrt a) (sqrt (1 - a))
  6371 * c

/-- The successful result dictionary of `calculate_route` (display-string
fields such as `duration_text` are omitted; no claim concerns them). -/
structure RouteResult where
  driving_distance_km : ℝ
  straight_distance_km : ℝ
  duration_seconds : ℤ
  duration_minutes : ℤ
  origin_coords : ℚ × ℚ
  destination_coords : ℚ × ℚ
  origin_address : List Char
  destination_address : List Char
  origin_match_type : MatchType
  destination_match_type : MatchType
  mode : List Char
  is_same_city : Bool

/-- The `speed_kmh` dictionary lookup `speed_kmh.get(mode, 35)` from
`calculate_route`. -/
def speed_kmh (mode : List Char) (is_same_city : Bool) : ℝ :=
  if mode = chars "driving" then (if is_same_city then 35 else 60)
  else if mode = chars "walking" then 5
  else if mode = chars "bicycling" then 15
  else 35

/-- The estimation part of `calculate_route` (src/geocoding.py lines 282-336),
given the two already-geocoded locations. -/
def route_from_geo (origin_geo dest_geo : GeoLoc) (mode : List Char) : RouteResult :=
  let straight_distance :=
    calculate_distance (origin_geo.latitude : ℝ) (origin_geo.longitude : ℝ)
      (dest_geo.latitude : ℝ) (dest_geo.longitude : ℝ)
  let is_same_city : Bool := origin_geo.city = dest_geo.city
  let distance_multiplier : ℝ := if is_same_city then 1.3 else 1.25
  let driving_distance := straight_distance * distance_multiplier
  let avg_speed := speed_kmh mode is_same_city
  let duration_hours := driving_distance / avg_speed
  { driving_distance_km := pyRound 1 driving_distance
    straight_distance_km := pyRound 1 straight_distance
    duration_seconds := pyInt (duration_hours * 3600)
    duration_minutes := pyInt (duration_hours * 60)
    origin_coords := (origin_geo.latitude, origin_geo.longitude)
    destination_coords := (dest_geo.latitude, dest_geo.longitude)
    origin_address := origin_geo.formatted_address
    destination_address := dest_geo.formatted_address
    origin_match_type := origin_geo.match_type
    destination_match_type := dest_geo.match_type
    mode := mode
    is_same_city := is_same_city }

/-- `calculate_route` from src/geocoding.py: geocode both addresses, then
estimate; `none` models the `{'success': False, ...}` error dictionaries. -/
def calculate_route (nominatim : List Char → Option NomHit)
    (origin destination mode : List Char) : Option RouteResult :=
  match (geocode_address nominatim origin).result with
  | none => none
  | some origin_geo =>
    match (geocode_address nominatim destination).result with
    | none => none
    | some dest_geo => some (route_from_geo origin_geo dest_geo mode)

end RouteGeometry

/-- `distance_km = max(1, round(distance_km * random.uniform(0.8, 1.2), 1))`
from `generate_mock_route_data` in src/app.py: the mock generator's distance,
given the raw haversine distance and the drawn random factor. -/
noncomputable def mock_distance_km (raw uniformDraw : ℝ) : ℝ :=
  max 1 (pyRound 1 (raw * uniformDraw))

/-! ### Tariff calculation (booking_service.py / app.py / config.py) -/

/-- The active pricing configuration (`PricingConfig.get_current()` in
src/services/booking_service.py, `Config` in src/config.py). -/
structure PricingConfig where
  price_per_km : ℚ
  minimum_price : ℚ
  weight_surcharge_per_kg : ℚ
  heavy_surcharge_per_kg : ℚ
  insurance_rate : ℚ
  express_multiplier : ℚ
  standard_multiplier : ℚ
  economy_multiplier : ℚ
  signature_fee : ℚ
deriving DecidableEq, Repr

/-- The default configuration values of src/config.py. -/
def defaultConfig : PricingConfig :=
  { price_per_km := 200
    minimum_price := 500
    weight_surcharge_per_kg := 50
    heavy_surcharge_per_kg := 100
    insurance_rate := 0.02
    express_multiplier := 1.5
    standard_multiplier := 1
    economy_multiplier := 0.8
    signature_fee := 200 }

/-- The `service_multipliers.get(service_type, 1.0)` lookup shared by
`calculate_final_price` and `api_calculate_price`. -/
def service_multiplier (cfg : PricingConfig) (service_type : List Char) : ℚ :=
  if service_type = chars "express" then cfg.express_multiplier
  else if service_type = chars "standard" then cfg.standard_multiplier
  else if service_type = chars "economy" then cfg.economy_multiplier
  else 1

/-- `calculate_final_price` from src/services/booking_service.py, given the
`base_price` field of the distance data: the ordered adjustment chain ending
in the minimum-price clamp and 2-digit rounding. -/
def calculate_final_price (cfg : PricingConfig) (base_price weight package_value : ℚ)
    (service_type : List Char) (insurance_required signature_required : Bool) : ℚ :=
  let total := base_price
  let total := if 5 < weight then total + (weight - 5) * cfg.weight_surcharge_per_kg else total
  let total := if 20 < weight then total + (weight - 20) * cfg.heavy_surcharge_per_kg else total
  let total := total * service_multiplier cfg service_type
  let total :=
    if insurance_required ∧ 0 < package_value then total + package_value * cfg.insurance_rate
    else total
  let total := if signature_required then total + cfg.signature_fee else total
  let total := if total < cfg.minimum_price then cfg.minimum_price else total
  pyRound 2 total

/-- The tier-1 `weight_surcharge_amount` variable of `api_calculate_price`
(src/app.py): only the first tier is recorded for the breakdown. -/
def api_weight_surcharge_amount (cfg : PricingConfig) (weight : ℚ) : ℚ :=
  if 5 < weight then (weight - 5) * cfg.weight_surcharge_per_kg else 0

/-- The `insurance_amount` variable of `api_calculate_price`. -/
def api_insurance_amount (cfg : PricingConfig) (insurance_required : Bool)
    (package_value : ℚ) : ℚ :=
  if insurance_required ∧ 0 < package_value then package_value * cfg.insurance_rate else 0

/-- The `total_price` of `api_calculate_price` just before the minimum-price
check (src/app.py lines 442-475). -/
def api_total_before_min (cfg : PricingConfig) (base_price weight package_value : ℚ)
    (service_type : List Char) (insurance_required signature_required : Bool) : ℚ :=
  let total := base_price
  let total := if 5 < weight then total + api_weight_surcharge_amount cfg weight else total
  let total := if 20 < weight then total + (weight - 20) * cfg.heavy_surcharge_per_kg else total
  let total := total * service_multiplier cfg service_type
  let total := total + api_insurance_amount cfg insurance_required package_value
  let total := if signature_required then total + cfg.signature_fee else total
  total

/-- The `minimum_adjustment` variable of `api_calculate_price`. -/
def api_minimum_adjustment (cfg : PricingConfig) (total_price : ℚ) : ℚ :=
  if total_price < cfg.minimum_price then cfg.minimum_price - total_price else 0

/-- The `price_breakdown` object returned by `api_calculate_price`. -/
structure PriceBreakdown where
  base_price : ℚ
  service_multiplier : ℚ
  weight : ℚ
  weight_surcharge : ℚ
  insurance_required : Bool
  insurance_amount : ℚ
  signature_required : Bool
  signature_fee : ℚ
  minimum_adjustment : ℚ
deriving DecidableEq, Repr

/-- The successful JSON response of `api_calculate_price`. -/
structure ApiPriceResult where
  final_price : ℚ
  breakdown : PriceBreakdown
deriving DecidableEq, Repr

/-- `api_calculate_price` from src/app.py (lines 408-503): the same ordered
chain as `calculate_final_price`, plus the itemized breakdown.  The numeric
inputs are the values produced by the lenient `safe_float` coercion. -/
def api_calculate_price (cfg : PricingConfig) (base_price weight package_value : ℚ)
    (service_type : List Char) (insurance_required signature_required : Bool) :
    ApiPriceResult :=
  let total :=
    api_total_before_min cfg base_price weight package_value service_type
      insurance_required signature_required
  let minimum_adjustment := api_minimum_adjustment cfg total
  let total_price := if total < cfg.minimum_price then cfg.minimum_price else total
  { final_price := pyRound 2 total_price
    breakdown :=
      { base_price := pyRound 2 base_price
        service_multiplier := service_multiplier cfg service_type
        weight := weight
        weight_surcharge :=
          if 5 < weight then pyRound 2 (api_weight_surcharge_amount cfg weight) else 0
        insurance_required := insurance_required
        insurance_amount :=
          if insurance_required then
            pyRound 2 (api_insurance_amount cfg insurance_required package_value)
          else 0
        signature_required := signature_required
        signature_fee := if signature_required then cfg.signature_fee else 0
        minimum_adjustment := pyRound 2 minimum_adjustment } }

/-! ### The distance-matrix (primary routing API) path of
`calculate_distance_matrix` (src/services/booking_service.py lines 100-195) -/

/-- The successful return dictionary of `calculate_distance_matrix`
(display-text fields omitted). -/
structure MatrixResult where
  driving_distance_km : ℚ
  straight_distance_km : ℚ
  duration_seconds : ℤ
  base_price : ℚ
  origin_coords : ℚ × ℚ
  destination_coords : ℚ × ℚ
deriving DecidableEq, Repr

/-- The success branch of `calculate_distance_matrix`, given the two geocoded
endpoints, the distance/duration element returned by the external Distance
Matrix API, and the straight-line distance computed by the external
`geopy.distance.geodesic` library.  The driving distance is
`element['distance']['value'] / 1000`, taken from the API verbatim. -/
def distance_matrix_result (cfg : PricingConfig) (origin_geo dest_geo : GeoLoc)
    (api_distance_meters : ℤ) (api_duration_seconds : ℤ) (geodesic_km : ℚ) :
    MatrixResult :=
  let distance_km : ℚ := (api_distance_meters : ℚ) / 1000
  let straight_distance_km := geodesic_km
  let base_price := distance_km * cfg.price_per_km
  let base_price := if base_price < cfg.minimum_price then cfg.minimum_price else base_price
  { driving_distance_km := pyRound 2 distance_km
    straight_distance_km := pyRound 2 straight_distance_km
    duration_seconds := api_duration_seconds
    base_price := pyRound 2 base_price
    origin_coords := (origin_geo.latitude, origin_geo.longitude)
    destination_coords := (dest_geo.latitude, dest_geo.longitude) }

/-! ### Lemmas about the numeric primitives -/

section RoundLemmas

variable {α : Type} [LinearOrderedField α] [FloorRing α]

theorem roundHalfEven_ge_floor (x : α) : ⌊x⌋ ≤ roundHalfEven x := by
  unfold roundHalfEven
  split_ifs <;> omega

theorem roundHalfEven_le_floor_add_one (x : α) : roundHalfEven x ≤ ⌊x⌋ + 1 := by
  unfold roundHalfEven
  split_ifs <;> omega

theorem roundHalfEven_mono {x y : α} (h : x ≤ y) : roundHalfEven x ≤ roundHalfEven y := by
  rcases lt_or_le ⌊x⌋ ⌊y⌋ with hf | hf
  · calc roundHalfEven x ≤ ⌊x⌋ + 1 := roundHalfEven_le_floor_add_one x
    _ ≤ ⌊y⌋ := by omega
    _ ≤ roundHalfEven y := roundHalfEven_ge_floor y
  · have hfe : ⌊x⌋ = ⌊y⌋ := le_antisymm (Int.floor_mono h) hf
    unfold roundHalfEven
    rw [hfe]
    split_ifs <;> first | omega | linarith

theorem roundHalfEven_zero : roundHalfEven (0 : α) = 0 := by
  have h0 : ⌊(0 : α)⌋ = 0 := Int.floor_zero
  unfold roundHalfEven
  rw [h0]
  norm_num

theorem roundHalfEven_intCast (n : ℤ) : roundHalfEven (n : α) = n := by
  have h0 : ⌊(n : α)⌋ = n := Int.floor_intCast n
  unfold roundHalfEven
  rw [h0]
  norm_num

theorem pyRound_mono (p : ℕ) {x y : α} (h : x ≤ y) : pyRound p x ≤ pyRound p y := by
  unfold pyRound
  have hp : (0 : α) < (10 : α) ^ p := by positivity
  have h1 : x * (10 : α) ^ p ≤ y * (10 : α) ^ p :=
    mul_le_mul_of_nonneg_right h hp.le
  have h2 : roundHalfEven (x * (10 : α) ^ p) ≤ roundHalfEven (y * (10 : α) ^ p) :=
    roundHalfEven_mono h1
  have h3 : ((roundHalfEven (x * (10 : α) ^ p) : ℤ) : α) ≤
      ((roundHalfEven (y * (10 : α) ^ p) : ℤ) : α) := by exact_mod_cast h2
  exact (div_le_div_iff_of_pos_right hp).mpr h3

theorem pyRound_zero (p : ℕ) : pyRound p (0 : α) = 0 := by
  unfold pyRound
  rw [zero_mul, roundHalfEven_zero]
  simp

theorem pyRound_nonneg (p : ℕ) {x : α} (h : 0 ≤ x) : 0 ≤ pyRound p x := by
  have := pyRound_mono (α := α) p h
  rwa [pyRound_zero] at this

theorem pyInt_eq_floor {x : α} (h : 0 ≤ x) : pyInt x = ⌊x⌋ := if_pos h

end RoundLemmas

/-! ### Lemmas about the haversine geometry -/

theorem atan2_nonneg {y x : ℝ} (hy : 0 ≤ y) : 0 ≤ atan2 y x := by
  unfold atan2
  have hpi := Real.pi_pos
  have harc := Real.neg_pi_div_two_lt_arctan (y / x)
  have hzero := Real.arctan_zero
  split_ifs with h1 h2 h3 h4
  all_goals try linarith
  · have hdiv : (0 : ℝ) ≤ y / x := div_nonneg hy h1.le
    have := Real.arctan_strictMono.monotone hdiv
    linarith

theorem earth_arc_nonneg (a b : ℝ) :
    (0 : ℝ) ≤ 6371 * (2 * atan2 (Real.sqrt a) (Real.sqrt b)) := by
  have h := atan2_nonneg (y := Real.sqrt a) (x := Real.sqrt b) (Real.sqrt_nonneg a)
  linarith

theorem calculate_distance_nonneg (lat1 lon1 lat2 lon2 : ℝ) :
    0 ≤ calculate_distance lat1 lon1 lat2 lon2 := by
  unfold calculate_distance
  exact earth_arc_nonneg _ _

theorem calculate_distance_self (lat lon : ℝ) :
    calculate_distance lat lon lat lon = 0 := by
  unfold calculate_distance
  simp only [sub_self, zero_div, Real.sin_zero, ne_eq, OfNat.ofNat_ne_zero,
    not_false_eq_true, zero_pow, mul_zero, add_zero, Real.sqrt_zero, sub_zero,
    Real.sqrt_one]
  have h2 : atan2 0 1 = 0 := by
    unfold atan2
    rw [if_pos one_pos]
    simp [Real.arctan_zero]
  rw [h2]
  ring

/-- Clamping to a minimum never goes below the minimum. -/
theorem min_clamp_ge (m t : ℚ) : m ≤ if t < m then m else t := by
  split
  · exact le_refl m
  · exact le_of_not_lt (by assumption)

/-! ### Claim C1: the ordered tariff chain -/

/-- Follows the spec's wording (§4.3, steps 1-6 plus the final 2-decimal
rounding): the ordered, non-commutative adjustment chain of the Tariff
Calculator, written independently of the source translation for
refinement comparison. -/
def tariffChainSpec (cfg : PricingConfig) (baseDistancePrice weightKg declaredValue : ℚ)
    (serviceType : List Char) (insuranceRequired signatureRequired : Bool) : ℚ :=
  let total := baseDistancePrice
  let total :=
    if 5 < weightKg then total + (weightKg - 5) * cfg.weight_surcharge_per_kg else total
  let total :=
    if 20 < weightKg then total + (weightKg - 20) * cfg.heavy_surcharge_per_kg else total
  let total := total *
    (if serviceType = chars "express" then cfg.express_multiplier
     else if serviceType = chars "standard" then cfg.standard_multiplier
     else if serviceType = chars "economy" then cfg.economy_multiplier
     else 1)
  let total :=
    if insuranceRequired ∧ 0 < declaredValue then total + declaredValue * cfg.insurance_rate
    else total
  let total := if signatureRequired then total + cfg.signature_fee else total
  let total := if total < cfg.minimum_price then cfg.minimum_price else total
  pyRound 2 total

/-- C1: the Tariff Calculator computes the final price by the ordered chain
(weight tiers on the excess, service multiplier on the running total,
insurance on the declared value, signature fee, minimum clamp, 2-decimal
rounding); in particular the spec's concrete case (base 2000, weight 25,
declared value 10000, express, insurance and signature on, default rates)
prices at 5650. -/
theorem C1_tariff_chain :
    (∀ (cfg : PricingConfig) (base_price weight package_value : ℚ)
        (service_type : List Char) (insurance_required signature_required : Bool),
        calculate_final_price cfg base_price weight package_value service_type
            insurance_required signature_required =
          tariffChainSpec cfg base_price weight package_value service_type
            insurance_required signature_required) ∧
    calculate_final_price defaultConfig 2000 25 10000 (chars "express") true true = 5650 := by
  constructor
  · intro cfg b w v st ins sig
    rfl
  · norm_num [calculate_final_price, service_multiplier, defaultConfig, pyRound,
      roundHalfEven]

/-! ### Claim C3: minimum-price clamp and the breakdown's adjustment -/

/-- C3 (amended): the final price is the 2-decimal rounding of the clamped
total, hence it is at least `pyRound 2 minimum_price` (but can be below
`minimum_price` itself when the configured minimum has more than two decimal
places); the reported `minimum_adjustment` is the 2-decimal rounding of
`minimum_price - total` when the pre-clamp total is below the minimum and 0
otherwise; both calculators are total functions, so a numeric quote is always
produced. -/
theorem C3_minimum_floor :
    ∀ (cfg : PricingConfig) (b w v : ℚ) (st : List Char) (ins sig : Bool),
      (api_calculate_price cfg b w v st ins sig).final_price =
        pyRound 2 (if api_total_before_min cfg b w v st ins sig < cfg.minimum_price
          then cfg.minimum_price else api_total_before_min cfg b w v st ins sig) ∧
      pyRound 2 cfg.minimum_price ≤ (api_calculate_price cfg b w v st ins sig).final_price ∧
      (api_calculate_price cfg b w v st ins sig).breakdown.minimum_adjustment =
        pyRound 2 (api_minimum_adjustment cfg (api_total_before_min cfg b w v st ins sig)) ∧
      pyRound 2 cfg.minimum_price ≤ calculate_final_price cfg b w v st ins sig := by
  intro cfg b w v st ins sig
  refine ⟨rfl, ?_, rfl, ?_⟩
  · exact pyRound_mono 2 (min_clamp_ge cfg.minimum_price _)
  · unfold calculate_final_price
    exact pyRound_mono 2 (min_clamp_ge cfg.minimum_price _)

/-- A configuration whose minimum price has three decimal places (0.125 is
exactly representable in binary floating point, so the Python source computes
with it exactly as well). -/
def subCentConfig : PricingConfig := { defaultConfig with minimum_price := 0.125 }

/-- C3 counterexample: with `minimum_price = 0.125` and all-zero inputs the
pre-clamp total is 0, the clamped total is 0.125, and `round(0.125, 2)`
(half-to-even) is 0.12 — strictly below the configured minimum price, and the
reported `minimum_adjustment` 0.12 differs from `minimum_price - total` =
0.125. -/
theorem C3_counterexample :
    (api_calculate_price subCentConfig 0 0 0 (chars "standard") false false).final_price <
      subCentConfig.minimum_price ∧
    (api_calculate_price subCentConfig 0 0 0 (chars "standard") false false).final_price ≠
      subCentConfig.minimum_price ∧
    (api_calculate_price subCentConfig 0 0 0 (chars "standard") false
        false).breakdown.minimum_adjustment ≠
      subCentConfig.minimum_price -
        api_total_before_min subCentConfig 0 0 0 (chars "standard") false false := by
  have hne : ¬ (chars "standard" = chars "express") := by decide
  refine ⟨?_, ?_, ?_⟩ <;>
    norm_num [api_calculate_price, api_total_before_min, api_minimum_adjustment,
      api_insurance_amount, api_weight_surcharge_amount, service_multiplier, hne,
      subCentConfig, defaultConfig, pyRound, roundHalfEven]

/-! ### Claim C9: zero-effect of small weights and non-positive declared values -/

/-- C9: two independent guarantees — for every weight at most 5 (negative
included) and ANY declared value, the weight surcharge contribution is zero
(the quote is unchanged when the weight is replaced by 0); and for every
non-positive declared value (negative included) and ANY weight, no insurance
amount is added (the quote is unchanged when the declared value is replaced
by 0).  The calculators are total functions, so out-of-range numbers still
yield a numeric quote. -/
theorem C9_lenient_inputs :
    ∀ (cfg : PricingConfig) (b w v : ℚ) (st : List Char) (ins sig : Bool),
      (w ≤ 5 →
        (api_calculate_price cfg b w v st ins sig).breakdown.weight_surcharge = 0 ∧
        api_total_before_min cfg b w v st ins sig =
          api_total_before_min cfg b 0 v st ins sig ∧
        calculate_final_price cfg b w v st ins sig =
          calculate_final_price cfg b 0 v st ins sig) ∧
      (v ≤ 0 →
        api_insurance_amount cfg ins v = 0 ∧
        (api_calculate_price cfg b w v st ins sig).breakdown.insurance_amount = 0 ∧
        api_total_before_min cfg b w v st ins sig =
          api_total_before_min cfg b w 0 st ins sig ∧
        calculate_final_price cfg b w v st ins sig =
          calculate_final_price cfg b w 0 st ins sig) := by
  intro cfg b w v st ins sig
  have h5z : ¬ (5 : ℚ) < 0 := by norm_num
  have h20z : ¬ (20 : ℚ) < 0 := by norm_num
  have hiz : ¬ (ins = true ∧ (0 : ℚ) < 0) := fun h => absurd h.2 (lt_irrefl 0)
  constructor
  · intro hw
    have h5 : ¬ (5 : ℚ) < w := not_lt.mpr hw
    have h20 : ¬ (20 : ℚ) < w := not_lt.mpr (hw.trans (by norm_num))
    refine ⟨?_, ?_, ?_⟩
    · simp [api_calculate_price, h5]
    · simp only [api_total_before_min, if_neg h5, if_neg h20, if_neg h5z, if_neg h20z]
    · simp only [calculate_final_price, if_neg h5, if_neg h20, if_neg h5z, if_neg h20z]
  · intro hv
    have hi : ¬ (ins = true ∧ 0 < v) := fun h => absurd h.2 (not_lt.mpr hv)
    refine ⟨?_, ?_, ?_, ?_⟩
    · simp [api_insurance_amount, hi]
    · simp [api_calculate_price, api_insurance_amount, hi, pyRound_zero]
    · simp only [api_total_before_min, api_insurance_amount, if_neg hi, if_neg hiz]
    · simp only [calculate_final_price, if_neg hi, if_neg hiz]

/-- C9 witness: the first guarantee at a negative weight with a POSITIVE
insured declared value (2000), the second at a negative declared value with a
heavy weight (25) and insurance requested — each side of the claim exercised
where the other side's hypothesis fails. -/
theorem C9_lenient_inputs_witness :
    ((-3 : ℚ) ≤ 5 ∧
      (api_calculate_price defaultConfig 100 (-3) 2000 (chars "express") true
          true).breakdown.weight_surcharge = 0 ∧
      api_total_before_min defaultConfig 100 (-3) 2000 (chars "express") true true =
        api_total_before_min defaultConfig 100 0 2000 (chars "express") true true ∧
      calculate_final_price defaultConfig 100 (-3) 2000 (chars "express") true true =
        calculate_final_price defaultConfig 100 0 2000 (chars "express") true true) ∧
    ((-50 : ℚ) ≤ 0 ∧
      api_insurance_amount defaultConfig true (-50) = 0 ∧
      (api_calculate_price defaultConfig 100 25 (-50) (chars "standard") true
          true).breakdown.insurance_amount = 0 ∧
      api_total_before_min defaultConfig 100 25 (-50) (chars "standard") true true =
        api_total_before_min defaultConfig 100 25 0 (chars "standard") true true ∧
      calculate_final_price defaultConfig 100 25 (-50) (chars "standard") true true =
        calculate_final_price defaultConfig 100 25 0 (chars "standard") true true) :=
  ⟨⟨by norm_num,
      (C9_lenient_inputs defaultConfig 100 (-3) 2000 (chars "express") true true).1
        (by norm_num)⟩,
    ⟨by norm_num,
      (C9_lenient_inputs defaultConfig 100 25 (-50) (chars "standard") true true).2
        (by norm_num)⟩⟩

/-! ### Claim C8: short addresses fail immediately -/

/-- C8: an address whose trimmed length is below 3 (the empty address
included) makes `geocode_address` return `None` at once — no gazetteer
result and no network call. -/
theorem C8_short_address_rejected :
    ∀ (nominatim : List Char → Option NomHit) (address : List Char),
      (pyStrip address).length < 3 →
      geocode_address nominatim address = ⟨none, false⟩ := by
  intro n a h
  unfold geocode_address
  rw [if_pos (Or.inr h)]

/-- C8 witness: the two-character address `" vi "`. -/
theorem C8_short_address_rejected_witness :
    (pyStrip (chars " vi ")).length < 3 ∧
    geocode_address offlineNominatim (chars " vi ") = ⟨none, false⟩ :=
  ⟨by decide, C8_short_address_rejected offlineNominatim (chars " vi ") (by decide)⟩

/-! ### Claim C4: gazetteer precedence -/

/-- C4 (amended): when the trimmed address has length at least 3 and its
normalized form contains a gazetteer name, `geocode_address` returns the
first matching entry as a `known_location` result without consulting the
network — uniformly in the behaviour of the Nominatim service. -/
theorem C4_gazetteer_precedence :
    ∀ (nominatim : List Char → Option NomHit) (address : List Char),
      3 ≤ (pyStrip address).length →
      (NIGERIAN_LOCATIONS.any fun e =>
          containsSub (chars e.name) (normalize_address (pyStrip address))) = true →
      ∃ e : LocEntry,
        find_known_location (pyStrip address) = some (knownLoc e) ∧
        (knownLoc e).match_type = MatchType.known_location ∧
        geocode_address nominatim address = ⟨some (knownLoc e), false⟩ := by
  intro n a h3 hany
  have hsome : (NIGERIAN_LOCATIONS.find? fun e =>
      containsSub (chars e.name) (normalize_address (pyStrip a))).isSome = true := by
    rw [List.find?_isSome]
    exact List.any_eq_true.mp hany
  obtain ⟨e, he⟩ := Option.isSome_iff_exists.mp hsome
  have hfk : find_known_location (pyStrip a) = some (knownLoc e) := by
    unfold find_known_location
    simp only [he, Option.map_some']
  have hcond : ¬(a = [] ∨ (pyStrip a).length < 3) := by
    rintro (rfl | hlt)
    · simp [pyStrip] at h3
    · omega
  refine ⟨e, hfk, rfl, ?_⟩
  unfold geocode_address
  rw [if_neg hcond]
  simp only [hfk]

/-- C4 witness: the address `"Chikakore, Kubwa, Abuja"`, whose normalized
form contains the gazetteer name `kubwa`. -/
theorem C4_gazetteer_precedence_witness :
    3 ≤ (pyStrip (chars "Chikakore, Kubwa, Abuja")).length ∧
    (NIGERIAN_LOCATIONS.any fun e =>
        containsSub (chars e.name)
          (normalize_address (pyStrip (chars "Chikakore, Kubwa, Abuja")))) = true ∧
    ∃ e : LocEntry,
      find_known_location (pyStrip (chars "Chikakore, Kubwa, Abuja")) = some (knownLoc e) ∧
      (knownLoc e).match_type = MatchType.known_location ∧
      geocode_address offlineNominatim (chars "Chikakore, Kubwa, Abuja") =
        ⟨some (knownLoc e), false⟩ :=
  ⟨by decide, by rfl,
    C4_gazetteer_precedence offlineNominatim (chars "Chikakore, Kubwa, Abuja")
      (by decide) (by rfl)⟩

/-- The city-fallback result that resolving `"airport road"` actually
produces (the gazetteer scan of step 1 misses, because normalization deletes
the token `road` from the address before matching). -/
def airportRoadFallback : GeoLoc :=
  { latitude := 9.0500
    longitude := 7.4500
    formatted_address := chars "airport road (approximate: Airport Road)"
    city := none
    match_type := .city_fallback
    is_approximate := true }

set_option maxRecDepth 4000 in
/-- C4 counterexample: the address `"airport road"` contains the gazetteer
name `airport road` verbatim, yet resolution does not return a
`KnownLocation` match — the network is consulted (here: the offline service),
and the result is only a `city_fallback` match. -/
theorem C4_gazetteer_precedence_counterexample :
    containsSub (chars "airport road") (pyLower (pyStrip (chars "airport road"))) = true ∧
    NIGERIAN_LOCATIONS[21]? = some ⟨"airport road", 9.0500, 7.4500, "Abuja"⟩ ∧
    geocode_address offlineNominatim (chars "airport road") =
      ⟨some airportRoadFallback, true⟩ ∧
    airportRoadFallback.match_type ≠ MatchType.known_location := by
  refine ⟨rfl, rfl, rfl, by decide⟩

/-! ### Claim C2: no 1 km floor on the live path -/

/-- C2 (amended): the live route estimator applies no 1 km floor — its
driving distance is only guaranteed non-negative (the counterexample shows a
resolvable pair at distance 0) — while the `max(1, ...)` clamp exists solely
in the mock route generator `generate_mock_route_data`. -/
theorem C2_distance_floor :
    (∀ (nominatim : List Char → Option NomHit) (origin destination mode : List Char)
        (r : RouteResult),
        calculate_route nominatim origin destination mode = some r →
        0 ≤ r.driving_distance_km) ∧
    ∀ (raw uniformDraw : ℝ), 1 ≤ mock_distance_km raw uniformDraw := by
  constructor
  · intro n o dst mode r h
    unfold calculate_route at h
    rcases hg1 : (geocode_address n o).result with _ | og <;> rw [hg1] at h
    · exact absurd h (by simp)
    rcases hg2 : (geocode_address n dst).result with _ | dg <;> rw [hg2] at h
    · exact absurd h (by simp)
    obtain rfl : route_from_geo og dg mode = r := Option.some.inj h
    have hs := calculate_distance_nonneg (og.latitude : ℝ) (og.longitude : ℝ)
      (dg.latitude : ℝ) (dg.longitude : ℝ)
    have hmul : (0 : ℝ) ≤
        (if (og.city = dg.city : Bool) = true then (1.3 : ℝ) else 1.25) := by
      split <;> norm_num
    exact pyRound_nonneg 1 (mul_nonneg hs hmul)
  · intro raw u
    exact le_max_left 1 _

/-- The resolved location shared by both `"kubwa"` and `"kubwa, abuja"`. -/
def kubwaLoc : GeoLoc := knownLoc ⟨"kubwa", 9.1167, 7.3833, "Abuja"⟩

/-- The route estimate between those two addresses (identical coordinates). -/
noncomputable def kubwaRoute : RouteResult :=
  route_from_geo kubwaLoc kubwaLoc (chars "driving")

set_option maxRecDepth 4000 in
/-- Both addresses resolve offline to the `kubwa` entry, so the route
succeeds. -/
theorem kubwaRoute_eq :
    calculate_route offlineNominatim (chars "kubwa") (chars "kubwa, abuja")
      (chars "driving") = some kubwaRoute := rfl

/-- C2 witness: the theorem applied to the degenerate same-point route. -/
theorem C2_distance_floor_witness :
    calculate_route offlineNominatim (chars "kubwa") (chars "kubwa, abuja")
      (chars "driving") = some kubwaRoute ∧
    0 ≤ kubwaRoute.driving_distance_km :=
  ⟨kubwaRoute_eq,
    C2_distance_floor.1 offlineNominatim (chars "kubwa") (chars "kubwa, abuja")
      (chars "driving") kubwaRoute kubwaRoute_eq⟩

/-- C2 counterexample: the two distinct resolvable addresses `"kubwa"` and
`"kubwa, abuja"` resolve to the same coordinates, so the estimated driving
distance is 0 — strictly below the claimed 1 km floor. -/
theorem C2_distance_floor_counterexample :
    calculate_route offlineNominatim (chars "kubwa") (chars "kubwa, abuja")
      (chars "driving") = some kubwaRoute ∧
    kubwaRoute.driving_distance_km < 1 := by
  refine ⟨kubwaRoute_eq, ?_⟩
  show (route_from_geo kubwaLoc kubwaLoc (chars "driving")).driving_distance_km < 1
  have hself : calculate_distance (kubwaLoc.latitude : ℝ) (kubwaLoc.longitude : ℝ)
      (kubwaLoc.latitude : ℝ) (kubwaLoc.longitude : ℝ) = 0 :=
    calculate_distance_self _ _
  simp only [route_from_geo, hself, zero_mul]
  rw [pyRound_zero]
  norm_num

/-- Every branch of the fallback speed table is positive. -/
theorem speed_kmh_pos (mode : List Char) (b : Bool) : 0 < speed_kmh mode b := by
  unfold speed_kmh
  split_ifs <;> norm_num

/-! ### Claim C5: driving distance dominates straight-line distance -/

/-- C5 (amended): on the geometric fallback path the estimated driving
distance is at least the straight-line distance, including after both are
rounded to one decimal for output (the multiplier is 1.3 or 1.25, both of
which are at least 1, and rounding is monotone); the claim's extension to the
primary routing-API path does not hold, since there the driving distance is
whatever the external API returns (see the counterexample). -/
theorem C5_distance_monotonicity :
    ∀ (o d : GeoLoc) (mode : List Char),
      (route_from_geo o d mode).straight_distance_km ≤
        (route_from_geo o d mode).driving_distance_km := by
  intro o d mode
  simp only [route_from_geo]
  apply pyRound_mono
  apply le_mul_of_one_le_right
    (calculate_distance_nonneg (o.latitude : ℝ) (o.longitude : ℝ)
      (d.latitude : ℝ) (d.longitude : ℝ))
  split <;> norm_num

/-- C5 counterexample: on the distance-matrix (routing API) path, an API
response of 1000 metres together with a geodesic straight-line distance of
10 km yields a route estimate whose driving distance (1 km) is strictly
below its straight-line distance (10 km) — the code never reconciles the
two. -/
theorem C5_distance_monotonicity_counterexample :
    (distance_matrix_result defaultConfig kubwaLoc kubwaLoc 1000 600
        10).driving_distance_km <
      (distance_matrix_result defaultConfig kubwaLoc kubwaLoc 1000 600
        10).straight_distance_km := by
  norm_num [distance_matrix_result, pyRound, roundHalfEven]

/-! ### Claim C7: fallback multipliers, speeds and duration truncation -/

/-- C7: the fallback estimator multiplies the haversine distance by 1.3 when
the two resolved cities are equal and by 1.25 otherwise, and derives the
duration from the mode table (driving: 35 km/h same-city / 60 km/h otherwise;
walking: 5; bicycling: 15; unknown modes: 35), with `duration_seconds` the
floor of the resulting seconds (Python `int()` truncates, which on these
non-negative values is the floor). -/
theorem C7_fallback_multiplier_speed :
    ∀ (o d : GeoLoc) (mode : List Char),
      (route_from_geo o d mode).driving_distance_km =
        pyRound 1 (calculate_distance (o.latitude : ℝ) (o.longitude : ℝ)
            (d.latitude : ℝ) (d.longitude : ℝ) *
          (if o.city = d.city then (1.3 : ℝ) else 1.25)) ∧
      (route_from_geo o d mode).duration_seconds =
        ⌊calculate_distance (o.latitude : ℝ) (o.longitude : ℝ)
            (d.latitude : ℝ) (d.longitude : ℝ) *
          (if o.city = d.city then (1.3 : ℝ) else 1.25) /
          (if mode = chars "driving" then (if o.city = d.city then (35 : ℝ) else 60)
           else if mode = chars "walking" then 5
           else if mode = chars "bicycling" then 15
           else 35) * 3600⌋ := by
  intro o d mode
  have hs := calculate_distance_nonneg (o.latitude : ℝ) (o.longitude : ℝ)
    (d.latitude : ℝ) (d.longitude : ℝ)
  constructor
  · by_cases h : o.city = d.city <;> simp [route_from_geo, h]
  · have hspeed : (0 : ℝ) <
        (if mode = chars "driving" then (if o.city = d.city then (35 : ℝ) else 60)
         else if mode = chars "walking" then 5
         else if mode = chars "bicycling" then 15
         else 35) := by
      split_ifs <;> norm_num
    have hmul : (0 : ℝ) ≤ (if o.city = d.city then (1.3 : ℝ) else 1.25) := by
      split <;> norm_num
    have harg : (0 : ℝ) ≤
        calculate_distance (o.latitude : ℝ) (o.longitude : ℝ)
            (d.latitude : ℝ) (d.longitude : ℝ) *
          (if o.city = d.city then (1.3 : ℝ) else 1.25) /
          (if mode = chars "driving" then (if o.city = d.city then (35 : ℝ) else 60)
           else if mode = chars "walking" then 5
           else if mode = chars "bicycling" then 15
           else 35) * 3600 :=
      mul_nonneg (div_nonneg (mul_nonneg hs hmul) hspeed.le) (by norm_num)
    rw [← pyInt_eq_floor harg]
    by_cases h : o.city = d.city <;> simp [route_from_geo, speed_kmh, h]

/-! ### Claim C10: two city-less locations count as the same city -/

/-- C10: when neither resolved location carries a city label (as with
Nominatim and city-fallback results, whose dictionaries have no `'city'`
key), the comparison `None == None` holds, so the estimator classifies the
trip as same-city and applies the 1.3 multiplier and, for driving, the
35 km/h city speed. -/
theorem C10_missing_cities_same_city :
    ∀ (o d : GeoLoc) (mode : List Char),
      o.city = none → d.city = none →
      (route_from_geo o d mode).is_same_city = true ∧
      (route_from_geo o d mode).driving_distance_km =
        pyRound 1 (calculate_distance (o.latitude : ℝ) (o.longitude : ℝ)
            (d.latitude : ℝ) (d.longitude : ℝ) * 1.3) ∧
      (mode = chars "driving" →
        (route_from_geo o d mode).duration_seconds =
          pyInt (calculate_distance (o.latitude : ℝ) (o.longitude : ℝ)
              (d.latitude : ℝ) (d.longitude : ℝ) * 1.3 / 35 * 3600)) := by
  intro o d mode ho hd
  refine ⟨by simp [route_from_geo, ho, hd], by simp [route_from_geo, ho, hd], ?_⟩
  rintro rfl
  simp [route_from_geo, speed_kmh, ho, hd]

/-- A Nominatim-style resolved location with no city label. -/
def nomSampleLoc : GeoLoc :=
  nomLoc { latitude := 9, longitude := 7, formatted_address := chars "somewhere, Nigeria",
           simplified := false }

/-- C10 witness: two Nominatim results (city label absent) in driving mode. -/
theorem C10_missing_cities_same_city_witness :
    (nomSampleLoc.city = none ∧ nomSampleLoc.city = none) ∧
    (route_from_geo nomSampleLoc nomSampleLoc (chars "driving")).is_same_city = true ∧
    (route_from_geo nomSampleLoc nomSampleLoc (chars "driving")).driving_distance_km =
      pyRound 1 (calculate_distance (nomSampleLoc.latitude : ℝ)
          (nomSampleLoc.longitude : ℝ) (nomSampleLoc.latitude : ℝ)
          (nomSampleLoc.longitude : ℝ) * 1.3) ∧
    (route_from_geo nomSampleLoc nomSampleLoc (chars "driving")).duration_seconds =
      pyInt (calculate_distance (nomSampleLoc.latitude : ℝ)
          (nomSampleLoc.longitude : ℝ) (nomSampleLoc.latitude : ℝ)
          (nomSampleLoc.longitude : ℝ) * 1.3 / 35 * 3600) :=
  ⟨⟨rfl, rfl⟩,
    (C10_missing_cities_same_city nomSampleLoc nomSampleLoc (chars "driving") rfl rfl).1,
    (C10_missing_cities_same_city nomSampleLoc nomSampleLoc (chars "driving") rfl rfl).2.1,
    (C10_missing_cities_same_city nomSampleLoc nomSampleLoc (chars "driving") rfl rfl).2.2
      rfl⟩

/-! ### Claim C6: round-trip re-resolution of formatted addresses -/

/-- The gazetteer entry selected when the formatted address synthesized for
entry `e` by a `KnownLocation` match is itself re-resolved: the first entry
of the table whose name occurs in the normalized formatted address.  This is
exactly the scan `find_known_location` performs (see
`C6_roundtrip_stability`). -/
def knownRoundTrip (e : LocEntry) : Option LocEntry :=
  NIGERIAN_LOCATIONS.find? fun e2 =>
    containsSub (chars e2.name) (normalize_address (knownLoc e).formatted_address)

/-- The gazetteer entries whose `KnownLocation` formatted address does NOT
re-resolve to the entry itself: for `airport road` the gazetteer scan finds
nothing (normalization deletes the token `road` before matching, so
resolution proceeds to the network and the city-level fallback), and for the
other twelve the scan finds a different, earlier-listed entry (e.g.
`wuse 2` re-resolves to `wuse`). -/
def roundTripExceptions : List String :=
  ["wuse 2", "garki 2", "airport road", "area 11", "trans amadi", "rumuokoro",
   "rumuola", "gra port harcourt", "sabon gari kano", "bodija", "challenge", "ui",
   "independence layout"]

set_option maxRecDepth 100000 in
/-- C6 (amended): re-resolving the formatted address `"{Name title-cased},
{City}, Nigeria"` of a `KnownLocation` match runs the gazetteer scan on the
normalized formatted address; for every entry except the thirteen in
`roundTripExceptions` that scan returns the original entry itself (hence the
same coordinates), while for each exception it returns a different entry or
none at all.  Entry names are pairwise distinct, so equality of names is
equality of entries. -/
theorem C6_roundtrip_stability :
    (∀ e : LocEntry,
        find_known_location (knownLoc e).formatted_address =
          (knownRoundTrip e).map knownLoc) ∧
    (NIGERIAN_LOCATIONS.all fun e =>
        ((knownRoundTrip e).map LocEntry.name == some e.name) ==
          !(roundTripExceptions.contains e.name)) = true :=
  ⟨fun _ => rfl, rfl⟩

set_option maxRecDepth 20000 in
/-- C6 counterexample: the gazetteer entry `wuse 2` (list position 7) has
formatted address `"Wuse 2, Abuja, Nigeria"`, but re-resolving that address
returns the `wuse` entry — whose coordinates (9.0765, 7.4897) differ from
the original (9.0780, 7.4750). -/
theorem C6_roundtrip_stability_counterexample :
    NIGERIAN_LOCATIONS[7]? = some ⟨"wuse 2", 9.0780, 7.4750, "Abuja"⟩ ∧
    (geocode_address offlineNominatim
        (knownLoc ⟨"wuse 2", 9.0780, 7.4750, "Abuja"⟩).formatted_address).result =
      some (knownLoc ⟨"wuse", 9.0765, 7.4897, "Abuja"⟩) ∧
    ((9.0765 : ℚ), (7.4897 : ℚ)) ≠ ((9.0780 : ℚ), (7.4750 : ℚ)) := by
  refine ⟨rfl, rfl, ?_⟩
  simp only [ne_eq, Prod.mk.injEq, not_and]
  intro h
  norm_num at h

end Logistics
